import Mathlib

/-!
Verification of the ic-ckTestBTC repository against its natural-language
specification.

The development shallowly embeds the two Rust canisters the claims are about:

* `src/mock_cktestbtc_ledger/src/lib.rs` — the ICRC-1/2 token ledger
  (`icrc1_transfer`, `icrc2_approve`, `icrc2_transfer_from`,
  `icrc1_total_supply`, `icrc1_balance_of`).
* `src/backend/src/lib.rs` — the custodial wallet
  (`withdraw_funds`, `virtual_transfer`, `deposit_to_custody`,
  `get_reserve_status`, the transaction logs).

Modelling conventions, stated once here:

* `Principal` (an opaque identity blob) is modelled as `Nat`; `Nat` stands in
  for `candid::Nat` (arbitrary-precision non-negative integer).
* The ledger's `HashMap<Account, Nat>` balance store is modelled as a total
  function `Account → Nat`.  The source removes an entry when its value
  reaches zero and every read defaults an absent key to zero
  (`get(..).cloned().unwrap_or(0)`), so "remove the entry" is modelled as
  "update the value to the default"; the two are observationally equal.
  The same convention applies to the allowance map, whose default value is
  `{ allowance := 0, expires_at := none }`.
* The backend's `StableBTreeMap<StorablePrincipal, u64>` of virtual balances
  is modelled as an association list `List (Principal × Nat)`, because the
  source iterates over it (`get_reserve_status` sums all entries).  `insert`
  replaces an existing key in place and appends a fresh one; `get` defaults
  to zero exactly as the source's `.unwrap_or(0)`.
* Inter-canister `await` points are modelled by giving each async method the
  call's outcome as an explicit argument (`LedgerCallResult`), and — where a
  claim is about interleaving during suspension — by splitting the method
  into its pre-await and post-await phases, cut exactly at the `await`.
* Rust `format!`-built `String` errors are modelled as structured inductive
  errors carrying the same information content as the formatted message.
* `ic_cdk::api::time()` is modelled as the `now` field of the backend state,
  which no modelled operation changes.
-/

namespace CkTestBTC

/-! ## Token ledger: data model (mock_cktestbtc_ledger/src/lib.rs) -/

abbrev Principal := Nat

/-- Mirror of `Account` from the ledger source: owner plus optional subaccount bytes. -/
structure Account where
  owner : Principal
  subaccount : Option (List Nat)
deriving DecidableEq, Repr

/-- Mirror of `Allowance`, stored per (owner, spender) pair. -/
structure Allowance where
  allowance : Nat
  expires_at : Option Nat
deriving DecidableEq, Repr

/-- Mirror of `TransferArg`, the argument of `icrc1_transfer`. -/
structure TransferArg where
  from_subaccount : Option (List Nat)
  «to» : Account
  amount : Nat
  fee : Option Nat
  memo : Option (List Nat)
  created_at_time : Option Nat
deriving DecidableEq, Repr

/-- Mirror of `TransferError`, the error union of `icrc1_transfer`. -/
inductive TransferError where
  | BadFee (expected_fee : Nat)
  | BadBurn (min_burn_amount : Nat)
  | InsufficientFunds (balance : Nat)
  | TooOld
  | CreatedInFuture (ledger_time : Nat)
  | TemporarilyUnavailable
  | Duplicate (duplicate_of : Nat)
  | GenericError (error_code : Nat) (message : String)
deriving DecidableEq, Repr

/-- Mirror of `ApproveArgs`, the argument of `icrc2_approve`. -/
structure ApproveArgs where
  fee : Option Nat
  memo : Option (List Nat)
  from_subaccount : Option (List Nat)
  created_at_time : Option Nat
  amount : Nat
  expected_allowance : Option Nat
  expires_at : Option Nat
  spender : Account
deriving DecidableEq, Repr

/-- Mirror of `ApproveError`, the error union of `icrc2_approve`. -/
inductive ApproveError where
  | GenericError (message : String) (error_code : Nat)
  | TemporarilyUnavailable
  | Duplicate (duplicate_of : Nat)
  | BadFee (expected_fee : Nat)
  | AllowanceChanged (current_allowance : Nat)
  | CreatedInFuture (ledger_time : Nat)
  | TooOld
  | Expired (ledger_time : Nat)
  | InsufficientFunds (balance : Nat)
deriving DecidableEq, Repr

/-- Mirror of `TransferFromArgs`, the argument of `icrc2_transfer_from`. -/
structure TransferFromArgs where
  spender_subaccount : Option (List Nat)
  «from» : Account
  «to» : Account
  amount : Nat
  fee : Option Nat
  memo : Option (List Nat)
  created_at_time : Option Nat
deriving DecidableEq, Repr

/-- Mirror of `TransferFromError`, the error union of `icrc2_transfer_from`. -/
inductive TransferFromError where
  | BadFee (expected_fee : Nat)
  | BadBurn (min_burn_amount : Nat)
  | InsufficientFunds (balance : Nat)
  | InsufficientAllowance (allowance : Nat)
  | TooOld
  | CreatedInFuture (ledger_time : Nat)
  | Duplicate (duplicate_of : Nat)
  | TemporarilyUnavailable
  | GenericError (error_code : Nat) (message : String)
deriving DecidableEq, Repr

/-- The ledger's four `thread_local!` stores: `BALANCES`, `ALLOWANCES`,
`TOTAL_SUPPLY`, `BLOCK_INDEX`. -/
structure LedgerState where
  balances : Account → Nat
  allowances : Account × Account → Allowance
  totalSupply : Nat
  blockIndex : Nat

/-- The ledger's `TRANSFER_FEE` constant (10 satoshi). -/
def TRANSFER_FEE : Nat := 10

/-- The default value read for an absent allowance entry. -/
def defaultAllowance : Allowance := ⟨0, none⟩

/-- Query `icrc1_balance_of`: unknown account yields 0 (the map default). -/
def icrc1_balance_of (account : Account) (st : LedgerState) : Nat :=
  st.balances account

/-- Query `icrc1_total_supply`. -/
def icrc1_total_supply (st : LedgerState) : Nat :=
  st.totalSupply

/-- Update call `icrc1_transfer` of the mock ledger, lines 202–262 of the source.
Fee check, sender-balance read, insufficiency check, then debit of
`amount + fee` from the sender followed by a credit of `amount` to the
receiver (the receiver balance is read from the already-debited map, which
matters when sender = receiver); the fee is credited to no one and the
total supply is not touched.  The result pairs the returned
`TransferResult` with the post-state; on every error path the state is
returned unchanged. -/
def icrc1_transfer (caller : Principal) (args : TransferArg) (st : LedgerState) :
    Except TransferError Nat × LedgerState :=
  let from_account : Account := ⟨caller, args.from_subaccount⟩
  let fee := args.fee.getD TRANSFER_FEE
  if fee ≠ TRANSFER_FEE then
    (.error (.BadFee TRANSFER_FEE), st)
  else
    let sender_balance := st.balances from_account
    let total_amount := args.amount + fee
    if sender_balance < total_amount then
      (.error (.InsufficientFunds sender_balance), st)
    else
      let b1 := Function.update st.balances from_account (sender_balance - total_amount)
      let receiver_balance := b1 args.«to»
      let b2 := Function.update b1 args.«to» (receiver_balance + args.amount)
      (.ok st.blockIndex,
        { st with balances := b2, blockIndex := st.blockIndex + 1 })

/-- Update call `icrc2_approve`, lines 280–338: fee check, balance-covers-fee check,
overwrite of the (caller, spender) allowance entry, fee deduction. -/
def icrc2_approve (caller : Principal) (args : ApproveArgs) (st : LedgerState) :
    Except ApproveError Nat × LedgerState :=
  let from_account : Account := ⟨caller, args.from_subaccount⟩
  let fee := args.fee.getD TRANSFER_FEE
  if fee ≠ TRANSFER_FEE then
    (.error (.BadFee TRANSFER_FEE), st)
  else
    let balance := st.balances from_account
    if balance < fee then
      (.error (.InsufficientFunds balance), st)
    else
      let al := Function.update st.allowances (from_account, args.spender)
        ⟨args.amount, args.expires_at⟩
      let b := Function.update st.balances from_account (balance - fee)
      (.ok st.blockIndex,
        { st with allowances := al, balances := b, blockIndex := st.blockIndex + 1 })

/-- Update call `icrc2_transfer_from`, lines 353–439: allowance read, caller-supplied
fee defaulted to `TRANSFER_FEE` with no validation, allowance and balance
checks against `amount + fee`, debit/credit as in `icrc1_transfer`, then the
allowance is decremented by `amount + fee` — the entry being removed when it
reaches zero and otherwise rewritten with the stored `expires_at` carried
over unchanged (`expires_at` is never read for expiry enforcement). -/
def icrc2_transfer_from (caller : Principal) (args : TransferFromArgs) (st : LedgerState) :
    Except TransferFromError Nat × LedgerState :=
  let spender_account : Account := ⟨caller, args.spender_subaccount⟩
  let allowance := st.allowances (args.«from», spender_account)
  let fee := args.fee.getD TRANSFER_FEE
  let total_amount := args.amount + fee
  if allowance.allowance < total_amount then
    (.error (.InsufficientAllowance allowance.allowance), st)
  else
    let from_balance := st.balances args.«from»
    if from_balance < total_amount then
      (.error (.InsufficientFunds from_balance), st)
    else
      let b1 := Function.update st.balances args.«from» (from_balance - total_amount)
      let to_balance := b1 args.«to»
      let b2 := Function.update b1 args.«to» (to_balance + args.amount)
      let new_allowance := allowance.allowance - total_amount
      let al :=
        if new_allowance = 0 then
          Function.update st.allowances (args.«from», spender_account) defaultAllowance
        else
          Function.update st.allowances (args.«from», spender_account)
            ⟨new_allowance, allowance.expires_at⟩
      (.ok st.blockIndex,
        { st with balances := b2, allowances := al, blockIndex := st.blockIndex + 1 })

/-! ## Custodial backend: data model (backend/src/lib.rs) -/

/-- Model of `BigUint::to_u64_digits` as used by the backend on `amount.0`: the
little-endian base-`2^64` limbs of the value, with no limbs for zero. -/
def to_u64_digits (n : Nat) : List Nat :=
  if n = 0 then [] else n % 2 ^ 64 :: to_u64_digits (n / 2 ^ 64)
decreasing_by exact Nat.div_lt_self (Nat.pos_of_ne_zero (by assumption)) (by norm_num)

/-- Mirror of the backend's `TransactionType`. -/
inductive TransactionType where
  | Send | Receive | Deposit | Withdraw | Mint
deriving DecidableEq, Repr

/-- Mirror of the backend's `TransactionStatus`. -/
inductive TransactionStatus where
  | Pending | Confirmed | Failed
deriving DecidableEq, Repr

/-- Legacy `Transaction` record (thread-local `TRANSACTIONS`). -/
structure Transaction where
  id : Nat
  tx_type : TransactionType
  token : String
  amount : Nat
  «from» : String
  «to» : String
  status : TransactionStatus
  timestamp : Nat
  block_index : Option Nat
deriving DecidableEq, Repr

/-- Mirror of the `CustodialTransaction` record (stable `STABLE_TRANSACTIONS`). -/
structure CustodialTransaction where
  id : Nat
  tx_type : TransactionType
  from_user : Option Principal
  to_user : Option Principal
  virtual_amount : Option Nat
  on_chain_amount : Option Nat
  block_index : Option Nat
  status : TransactionStatus
  timestamp : Nat
deriving DecidableEq, Repr

/-- Mirror of the `DepositReceipt` returned by `deposit_to_custody`. -/
structure DepositReceipt where
  block_index : Nat
  amount_deposited : Nat
  new_custodial_balance : Nat
  remaining_personal_balance : Nat
deriving DecidableEq, Repr

/-- Mirror of the `ReserveStatus` returned by `get_reserve_status`.  The source's
`reserve_ratio` is an `f64`; it is modelled as an exact rational, which is
faithful for every value the source can actually produce (`0/v` and `1.0`
are exact in `f64`). -/
structure ReserveStatus where
  total_virtual_balances : Nat
  backend_actual_balance : Nat
  reserve_ratio : ℚ
  is_solvent : Bool
deriving DecidableEq, Repr

/-- The backend's mutable stores: the virtual-balance map `USER_BALANCES`
(association list mirroring the `StableBTreeMap`), the two transaction logs
with their counters, and the current time (`ic_cdk::api::time()`). -/
structure BackendState where
  userBalances : List (Principal × Nat)
  stableTxs : List CustodialTransaction
  stableTxCounter : Nat
  txs : List Transaction
  txCounter : Nat
  now : Nat
deriving DecidableEq, Repr

/-- Read `USER_BALANCES.get(&user).unwrap_or(0)`. -/
def lookupBal : List (Principal × Nat) → Principal → Nat
  | [], _ => 0
  | (q, w) :: rest, p => if q = p then w else lookupBal rest p

/-- Write `USER_BALANCES.insert(user, v)`: replaces an existing key, appends a
fresh one. -/
def insertBal : List (Principal × Nat) → Principal → Nat → List (Principal × Nat)
  | [], p, v => [(p, v)]
  | (q, w) :: rest, p, v =>
      if q = p then (p, v) :: rest else (q, w) :: insertBal rest p v

/-- Helper `store_custodial_transaction`: bumps the stable counter, appends the
record, returns the fresh id. -/
def store_custodial_transaction (tx_type : TransactionType)
    (from_user to_user : Option Principal) (virtual_amount on_chain_amount : Option Nat)
    (status : TransactionStatus) (block_index : Option Nat) (st : BackendState) :
    Nat × BackendState :=
  let id := st.stableTxCounter + 1
  (id, { st with
    stableTxCounter := id,
    stableTxs := st.stableTxs ++
      [⟨id, tx_type, from_user, to_user, virtual_amount, on_chain_amount,
        block_index, status, st.now⟩] })

/-- Helper `store_transaction` (legacy log): bumps the counter, appends the record,
returns the fresh id. -/
def store_transaction (tx_type : TransactionType) (token : String) (amount : Nat)
    (fromText toText : String) (status : TransactionStatus)
    (block_index : Option Nat) (st : BackendState) : Nat × BackendState :=
  let id := st.txCounter + 1
  (id, { st with
    txCounter := id,
    txs := st.txs ++ [⟨id, tx_type, token, amount, fromText, toText, status, st.now,
      block_index⟩] })

instance {ε α : Type} [DecidableEq ε] [DecidableEq α] : DecidableEq (Except ε α) :=
  fun x y =>
  match x, y with
  | .ok a, .ok b =>
      if h : a = b then isTrue (by rw [h])
      else isFalse (by intro hc; cases hc; exact h rfl)
  | .error a, .error b =>
      if h : a = b then isTrue (by rw [h])
      else isFalse (by intro hc; cases hc; exact h rfl)
  | .ok _, .error _ => isFalse (by intro hc; cases hc)
  | .error _, .ok _ => isFalse (by intro hc; cases hc)

/-- Outcome of an awaited inter-canister ledger call: either the callee's
reply (itself a `Result`) or a call-level rejection (`CallResult::Err`). -/
inductive LedgerCallResult where
  | reply (r : Except TransferError Nat)
  | rejected
deriving DecidableEq, Repr

/-- The `String` errors `withdraw_funds` can return, as structured values:
"Invalid amount format", "Insufficient virtual balance. Available: _,
Requested: _", "Withdrawal transfer failed: _", "Withdrawal call failed". -/
inductive WithdrawErr where
  | invalidAmount
  | insufficientVirtual (available requested : Nat)
  | transferFailed (e : TransferError)
  | callFailed
deriving DecidableEq, Repr

/-- The part of a `withdraw_funds` call that is still live across the
`await` of the ledger transfer: the caller, the parsed amount and the
virtual-balance snapshot read *before* the suspension. -/
structure WithdrawPending where
  user : Principal
  amount : Nat
  snapshot : Nat
deriving DecidableEq, Repr

/-- Pre-await phase of `withdraw_funds` (source lines 671–724): amount-format
guard, virtual-balance read and check (appending a Failed record on
insufficiency); ends where the code issues the `icrc1_transfer` call and
suspends.  No balance mutation happens in this phase.  On success it carries
the balance snapshot into the pending frame. -/
def withdraw_phase1 (user : Principal) (amount : Nat) (st : BackendState) :
    Except WithdrawErr WithdrawPending × BackendState :=
  if (to_u64_digits amount).length ≠ 1 then
    (.error .invalidAmount, st)
  else
    let current_balance := lookupBal st.userBalances user
    if current_balance < amount then
      let st' := (store_custodial_transaction .Withdraw none (some user)
        (some amount) (some amount) .Failed none st).2
      (.error (.insufficientVirtual current_balance amount), st')
    else
      (.ok ⟨user, amount, current_balance⟩, st)

/-- Post-await phase of `withdraw_funds` (source lines 726–772): on ledger
success it writes `snapshot - amount` into the virtual-balance map — using
the phase-1 snapshot, with **no re-read and no re-validation** of the
current balance (source line 733: `let new_balance = current_balance -
amount_u64`) — and appends a Confirmed record; on a ledger-level error it
appends a Failed record and surfaces the error; on call-level rejection it
just surfaces the error. -/
def withdraw_phase2 (p : WithdrawPending) (resp : LedgerCallResult)
    (st : BackendState) : Except WithdrawErr Nat × BackendState :=
  match resp with
  | .reply (.ok block_index) =>
      let new_balance := p.snapshot - p.amount
      let st1 := { st with userBalances := insertBal st.userBalances p.user new_balance }
      let st2 := (store_custodial_transaction .Withdraw none (some p.user)
        (some p.amount) (some p.amount) .Confirmed (some block_index) st1).2
      (.ok block_index, st2)
  | .reply (.error e) =>
      let st' := (store_custodial_transaction .Withdraw none (some p.user)
        (some p.amount) (some p.amount) .Failed none st).2
      (.error (.transferFailed e), st')
  | .rejected =>
      (.error .callFailed, st)

/-- Method `withdraw_funds` run without interleaving: phase 1, then — unless phase 1
already returned — phase 2 on the ledger call's outcome `resp`. -/
def withdraw_funds (user : Principal) (amount : Nat) (resp : LedgerCallResult)
    (st : BackendState) : Except WithdrawErr Nat × BackendState :=
  match withdraw_phase1 user amount st with
  | (.error e, st') => (.error e, st')
  | (.ok p, st') => withdraw_phase2 p resp st'

/-- The `String` errors `virtual_transfer` can return, as structured values:
"Invalid amount format", "Cannot transfer to yourself: _ -> _",
"Insufficient virtual balance. Available: _, Requested: _". -/
inductive VirtualTransferErr where
  | invalidAmount
  | selfTransfer
  | insufficientVirtual (available requested : Nat)
deriving DecidableEq, Repr

/-- Update call `virtual_transfer` (source lines 775–853): amount-format guard,
self-transfer rejection, then — atomically, no suspension point — reads both
virtual balances, checks the sender's, debits the sender and credits the
recipient; appends a Confirmed record (no block index) and returns its id,
or appends a Failed record and returns the error. -/
def virtual_transfer (from_user to_user : Principal) (amount : Nat)
    (st : BackendState) : Except VirtualTransferErr Nat × BackendState :=
  if (to_u64_digits amount).length ≠ 1 then
    (.error .invalidAmount, st)
  else if from_user = to_user then
    (.error .selfTransfer, st)
  else
    let from_balance := lookupBal st.userBalances from_user
    let to_balance := lookupBal st.userBalances to_user
    if from_balance < amount then
      let st' := (store_custodial_transaction .Send (some from_user) (some to_user)
        (some amount) none .Failed none st).2
      (.error (.insufficientVirtual from_balance amount), st')
    else
      let ub := insertBal (insertBal st.userBalances from_user (from_balance - amount))
        to_user (to_balance + amount)
      let st1 := { st with userBalances := ub }
      let (tx_id, st2) := store_custodial_transaction .Send (some from_user)
        (some to_user) (some amount) none .Confirmed none st1
      (.ok tx_id, st2)

/-- The `String` errors `deposit_to_custody` can return, as structured
values: "Failed to check balance", "Insufficient personal balance. Balance:
_, Needed: _", "Transfer failed: _", "Failed to call transfer". -/
inductive DepositErr where
  | balanceCheckFailed
  | insufficientPersonal (balance needed : Nat)
  | transferFailed (e : TransferError)
  | callFailed
deriving DecidableEq, Repr

/-- Update call `deposit_to_custody` (source lines 465–580).  The outcomes of its four
awaited ledger calls are passed explicitly: the personal-balance read (`none`
= call failed), the transfer, and the two post-transfer balance re-reads
(degraded to 0 on failure, mirroring `Err(_) => Nat::from(0u64)`).  On a
ledger-level transfer error the source returns the error immediately
(line 530–533) — it stores **no** transaction record on any failure path;
only the success path appends a Confirmed record to the legacy log. -/
def deposit_to_custody (caller : Principal) (amount : Nat)
    (personal_balance_resp : Option Nat) (transfer_resp : LedgerCallResult)
    (custodial_balance_resp personal_balance_resp2 : Option Nat)
    (st : BackendState) : Except DepositErr DepositReceipt × BackendState :=
  match personal_balance_resp with
  | none => (.error .balanceCheckFailed, st)
  | some personal_balance =>
    let fee := 10
    let total_needed := amount + fee
    if personal_balance < total_needed then
      (.error (.insufficientPersonal personal_balance total_needed), st)
    else
      match transfer_resp with
      | .reply (.ok block_index) =>
          let new_custodial_balance := custodial_balance_resp.getD 0
          let remaining_personal_balance := personal_balance_resp2.getD 0
          let st' := (store_transaction .Deposit "ckTestBTC" amount
            (toString caller) "Custodial Wallet" .Confirmed (some block_index) st).2
          (.ok ⟨block_index, amount, new_custodial_balance,
            remaining_personal_balance⟩, st')
      | .reply (.error e) => (.error (.transferFailed e), st)
      | .rejected => (.error .callFailed, st)

/-- Query `get_reserve_status` (source lines 862–882): sums all virtual balances;
`backend_actual` is the hard-coded placeholder `0u64` from source line 869
("For now, using placeholder values - would need to query actual backend
balance") — no ledger query is made. -/
def get_reserve_status (st : BackendState) : ReserveStatus :=
  let total_virtual := (st.userBalances.map Prod.snd).sum
  let backend_actual : Nat := 0
  let reserve_ratio : ℚ :=
    if total_virtual > 0 then (backend_actual : ℚ) / (total_virtual : ℚ) else 1
  { total_virtual_balances := total_virtual
    backend_actual_balance := backend_actual
    reserve_ratio := reserve_ratio
    is_solvent := decide (total_virtual ≤ backend_actual) }

/-- Modelled from the spec: the specification's `reserve_status` ("Sums all
VirtualBalance entries; compares to the wallet's own ledger balance
(obtained from TokenLedger)"; "ratio = actual/virtual (defined as 1.0 when
virtual total is zero), solvent ⇔ actual ≥ virtual").  The source's
`get_reserve_status` makes no ledger query (placeholder 0), so the
spec-side definition takes the ledger state and the wallet's own account
and reads `actual` from the ledger, for comparison with the source-side
definition above. -/
def reserve_status_spec (st : BackendState) (ledger : LedgerState)
    (backendAccount : Account) : ReserveStatus :=
  let total_virtual := (st.userBalances.map Prod.snd).sum
  let actual := icrc1_balance_of backendAccount ledger
  { total_virtual_balances := total_virtual
    backend_actual_balance := actual
    reserve_ratio := if total_virtual > 0 then (actual : ℚ) / (total_virtual : ℚ) else 1
    is_solvent := decide (total_virtual ≤ actual) }

/-! ## Ledger operation sequences (for the conservation property) -/

/-- A state-changing ledger call of the two kinds the conservation claim
quantifies over. -/
inductive LedgerOp where
  | transfer (caller : Principal) (args : TransferArg)
  | transferFrom (caller : Principal) (args : TransferFromArgs)
deriving Repr

/-- The post-state of one ledger call. -/
def LedgerOp.run : LedgerOp → LedgerState → LedgerState
  | .transfer c a, st => (icrc1_transfer c a st).2
  | .transferFrom c a, st => (icrc2_transfer_from c a st).2

/-- The fee charged by one ledger call: the effective fee
(`args.fee.unwrap_or(TRANSFER_FEE)`) when the call succeeds, 0 when it
fails. -/
def LedgerOp.chargedFee : LedgerOp → LedgerState → Nat
  | .transfer c a, st =>
      match (icrc1_transfer c a st).1 with
      | .ok _ => a.fee.getD TRANSFER_FEE
      | .error _ => 0
  | .transferFrom c a, st =>
      match (icrc2_transfer_from c a st).1 with
      | .ok _ => a.fee.getD TRANSFER_FEE
      | .error _ => 0

/-- The accounts a ledger call can read or write. -/
def LedgerOp.touched : LedgerOp → List Account
  | .transfer c a => [⟨c, a.from_subaccount⟩, a.«to»]
  | .transferFrom _ a => [a.«from», a.«to»]

/-- Run a sequence of ledger calls left to right. -/
def runOps : List LedgerOp → LedgerState → LedgerState
  | [], st => st
  | op :: ops, st => runOps ops (op.run st)

/-- Total fees charged across a sequence of ledger calls (0 for each failed
call). -/
def feesCharged : List LedgerOp → LedgerState → Nat
  | [], _ => 0
  | op :: ops, st => op.chargedFee st + feesCharged ops (op.run st)

/-! ## Concrete fixtures used by witnesses and counterexamples -/

/-- A user's default account. -/
def acctA : Account := ⟨1, none⟩

/-- Another user's default account. -/
def acctB : Account := ⟨2, none⟩

/-- A ledger state holding 1000 satoshi for `acctA`, nothing else. -/
def ledger0 : LedgerState :=
  { balances := fun a => if a = acctA then 1000 else 0
    allowances := fun _ => defaultAllowance
    totalSupply := 1000
    blockIndex := 0 }

/-! ## Helper lemmas -/

lemma to_u64_digits_eq_nil_iff (n : Nat) : to_u64_digits n = [] ↔ n = 0 := by
  constructor
  · intro h
    by_contra hn
    rw [to_u64_digits, if_neg hn] at h
    exact List.cons_ne_nil _ _ h
  · intro h; subst h; rw [to_u64_digits]; simp

/-- The backend's `amount.0.to_u64_digits().len() != 1` guard passes exactly
for the values representable in one `u64` limb, i.e. `0 < n < 2^64`. -/
lemma to_u64_digits_length_eq_one_iff (n : Nat) :
    (to_u64_digits n).length = 1 ↔ 0 < n ∧ n < 2 ^ 64 := by
  rw [to_u64_digits]
  by_cases hn : n = 0
  · subst hn; simp
  · rw [if_neg hn]
    simp only [List.length_cons, Nat.add_left_eq_self, List.length_eq_zero,
      to_u64_digits_eq_nil_iff]
    rw [Nat.div_eq_zero_iff (by norm_num : (0:Nat) < 2 ^ 64)]
    omega

/-- Evaluation rule for the amount parser on single-limb values: a value
that fits one `u64` limb has exactly itself as digit list. -/
lemma to_u64_digits_one_limb (n : Nat) (h1 : 0 < n) (h2 : n < 2 ^ 64) :
    to_u64_digits n = [n] := by
  rw [to_u64_digits, if_neg (by omega), Nat.mod_eq_of_lt h2, Nat.div_eq_of_lt h2,
    to_u64_digits, if_pos rfl]

/-- Summing a point-update of a balance map over any index set containing
the updated key replaces that key's contribution. -/
lemma sum_update_add (S : Finset Account) (f : Account → Nat) (i : Account)
    (hi : i ∈ S) (v : Nat) :
    (∑ a ∈ S, Function.update f i v a) + f i = (∑ a ∈ S, f a) + v := by
  rw [Finset.sum_update_of_mem hi f v, ← Finset.erase_eq]
  have h := Finset.sum_erase_add S f hi
  omega

/-- One ledger call conserves value up to the charged fee: over any account
set containing the call's touched accounts, the balance total drops by
exactly the fee on success and is unchanged on failure. -/
lemma LedgerOp.sum_run_add_chargedFee (op : LedgerOp) (st : LedgerState)
    (S : Finset Account) (h : ∀ acc ∈ op.touched, acc ∈ S) :
    (∑ a ∈ S, (op.run st).balances a) + op.chargedFee st =
      ∑ a ∈ S, st.balances a := by
  cases op with
  | transfer c args =>
    have hfrom : (⟨c, args.from_subaccount⟩ : Account) ∈ S := by
      apply h; simp [touched]
    have hto : args.«to» ∈ S := by
      apply h; simp [touched]
    dsimp only [run, chargedFee, icrc1_transfer]
    split_ifs with h1 h2
    · simp
    · simp
    · have e1 := sum_update_add S st.balances ⟨c, args.from_subaccount⟩ hfrom
        (st.balances ⟨c, args.from_subaccount⟩ - (args.amount + args.fee.getD TRANSFER_FEE))
      have e2 := sum_update_add S
        (Function.update st.balances ⟨c, args.from_subaccount⟩
          (st.balances ⟨c, args.from_subaccount⟩ - (args.amount + args.fee.getD TRANSFER_FEE)))
        args.«to» hto
        ((Function.update st.balances ⟨c, args.from_subaccount⟩
          (st.balances ⟨c, args.from_subaccount⟩ - (args.amount + args.fee.getD TRANSFER_FEE)))
          args.«to» + args.amount)
      have e3 : st.balances ⟨c, args.from_subaccount⟩ ≤ ∑ a ∈ S, st.balances a :=
        Finset.single_le_sum (fun i _ => Nat.zero_le _) hfrom
      simp only
      omega
  | transferFrom c args =>
    have hfrom : args.«from» ∈ S := by
      apply h; simp [touched]
    have hto : args.«to» ∈ S := by
      apply h; simp [touched]
    dsimp only [run, chargedFee, icrc2_transfer_from]
    split_ifs with h1 h2 h3
    · simp
    · simp
    all_goals
      have e1 := sum_update_add S st.balances args.«from» hfrom
        (st.balances args.«from» - (args.amount + args.fee.getD TRANSFER_FEE))
    all_goals
      have e2 := sum_update_add S
        (Function.update st.balances args.«from»
          (st.balances args.«from» - (args.amount + args.fee.getD TRANSFER_FEE)))
        args.«to» hto
        ((Function.update st.balances args.«from»
          (st.balances args.«from» - (args.amount + args.fee.getD TRANSFER_FEE)))
          args.«to» + args.amount)
    all_goals
      have e3 : st.balances args.«from» ≤ ∑ a ∈ S, st.balances a :=
        Finset.single_le_sum (fun i _ => Nat.zero_le _) hfrom
    all_goals simp only
    all_goals omega

/-! ## Claim C2 -/

/-- C2: for every sequence of `icrc1_transfer` / `icrc2_transfer_from` calls,
the sum of all account balances after the sequence plus the sum of all fees
charged by the successful calls equals the sum of all balances before: each
successful call debits the payer by `amount + fee`, credits the recipient by
exactly `amount`, and credits the fee to no account.  ("All account
balances" is expressed as the sum over any finite account set `S` containing
every account the sequence touches; accounts outside `S` are never
modified.) -/
theorem transfer_sequence_conservation (ops : List LedgerOp) (st : LedgerState)
    (S : Finset Account)
    (hS : ∀ op ∈ ops, ∀ acc ∈ LedgerOp.touched op, acc ∈ S) :
    (∑ a ∈ S, (runOps ops st).balances a) + feesCharged ops st =
      ∑ a ∈ S, st.balances a := by
  induction ops generalizing st with
  | nil => simp [runOps, feesCharged]
  | cons op ops ih =>
    have hstep := LedgerOp.sum_run_add_chargedFee op st S (hS op (by simp))
    have htail := ih (op.run st) (fun o ho => hS o (List.mem_cons_of_mem _ ho))
    simp only [runOps, feesCharged]
    omega

/-- A two-call sequence for the conservation witness: a direct transfer of
100 from `acctA` to `acctB`, then a delegated transfer that fails (no
allowance was granted). -/
def consOps : List LedgerOp :=
  [.transfer 1 ⟨none, acctB, 100, none, none, none⟩,
   .transferFrom 2 ⟨none, acctA, acctB, 50, none, none, none⟩]

/-- Witness for C2 at a concrete input: the hypothesis holds for
`S = {acctA, acctB}` and the conserved-sum conclusion holds on `ledger0`. -/
theorem transfer_sequence_conservation_witness :
    (∀ op ∈ consOps, ∀ acc ∈ LedgerOp.touched op, acc ∈ ({acctA, acctB} : Finset Account)) ∧
    (∑ a ∈ ({acctA, acctB} : Finset Account), (runOps consOps ledger0).balances a) +
        feesCharged consOps ledger0 =
      ∑ a ∈ ({acctA, acctB} : Finset Account), ledger0.balances a :=
  ⟨by decide, transfer_sequence_conservation consOps ledger0 _ (by decide)⟩

/-! ## Claim C6 -/

/-- C6: every successful `icrc1_transfer` burns the fee without total-supply
accounting: `icrc1_total_supply` returns the same value after the transfer
as before it, the balance total over any account set `S` containing the
touched accounts drops by exactly `TRANSFER_FEE` (so no account — and no fee
collector — is credited the fee), and for distinct payer and recipient the
payer's balance decreases by `amount + TRANSFER_FEE` while the recipient's
increases by exactly `amount`. -/
theorem transfer_fee_burn_total_supply (caller : Principal) (args : TransferArg)
    (st : LedgerState) (idx : Nat) (S : Finset Account)
    (hok : (icrc1_transfer caller args st).1 = .ok idx)
    (hfrom : (⟨caller, args.from_subaccount⟩ : Account) ∈ S)
    (hto : args.«to» ∈ S)
    (hne : (⟨caller, args.from_subaccount⟩ : Account) ≠ args.«to») :
    icrc1_total_supply (icrc1_transfer caller args st).2 = icrc1_total_supply st ∧
    (∑ a ∈ S, (icrc1_transfer caller args st).2.balances a) + TRANSFER_FEE =
      ∑ a ∈ S, st.balances a ∧
    (icrc1_transfer caller args st).2.balances ⟨caller, args.from_subaccount⟩ +
      (args.amount + TRANSFER_FEE) = st.balances ⟨caller, args.from_subaccount⟩ ∧
    (icrc1_transfer caller args st).2.balances args.«to» =
      st.balances args.«to» + args.amount := by
  dsimp only [icrc1_transfer, icrc1_total_supply] at hok ⊢
  split_ifs at hok ⊢ with h1 h2
  all_goals simp only [Prod.fst, reduceCtorEq] at hok
  case _ =>
    have hfee : args.fee.getD TRANSFER_FEE = TRANSFER_FEE := by
      by_contra hc; exact h1 hc
    have e1 := sum_update_add S st.balances ⟨caller, args.from_subaccount⟩ hfrom
      (st.balances ⟨caller, args.from_subaccount⟩ - (args.amount + args.fee.getD TRANSFER_FEE))
    have e2 := sum_update_add S
      (Function.update st.balances ⟨caller, args.from_subaccount⟩
        (st.balances ⟨caller, args.from_subaccount⟩ - (args.amount + args.fee.getD TRANSFER_FEE)))
      args.«to» hto
      ((Function.update st.balances ⟨caller, args.from_subaccount⟩
        (st.balances ⟨caller, args.from_subaccount⟩ - (args.amount + args.fee.getD TRANSFER_FEE)))
        args.«to» + args.amount)
    have e3 : st.balances ⟨caller, args.from_subaccount⟩ ≤ ∑ a ∈ S, st.balances a :=
      Finset.single_le_sum (fun i _ => Nat.zero_le _) hfrom
    refine ⟨rfl, ?_, ?_, ?_⟩
    · simp only
      omega
    · simp only [Function.update_noteq hne, Function.update_same]
      omega
    · simp only [Function.update_same, Function.update_noteq (Ne.symm hne)]

/-- Arguments for the C6 witness transfer: 100 satoshi from `acctA` (owner 1)
to `acctB`. -/
def feeBurnArgs : TransferArg := ⟨none, acctB, 100, none, none, none⟩

/-- Witness for C6 at a concrete input: the transfer succeeds on `ledger0`,
the membership and distinctness hypotheses hold for `S = {acctA, acctB}`,
and the fee-burn conclusions hold. -/
theorem transfer_fee_burn_total_supply_witness :
    (icrc1_transfer 1 feeBurnArgs ledger0).1 = .ok 0 ∧
    ((icrc1_total_supply (icrc1_transfer 1 feeBurnArgs ledger0).2 = icrc1_total_supply ledger0) ∧
     (∑ a ∈ ({acctA, acctB} : Finset Account),
        (icrc1_transfer 1 feeBurnArgs ledger0).2.balances a) + TRANSFER_FEE =
       ∑ a ∈ ({acctA, acctB} : Finset Account), ledger0.balances a ∧
     (icrc1_transfer 1 feeBurnArgs ledger0).2.balances ⟨1, feeBurnArgs.from_subaccount⟩ +
       (feeBurnArgs.amount + TRANSFER_FEE) = ledger0.balances ⟨1, feeBurnArgs.from_subaccount⟩ ∧
     (icrc1_transfer 1 feeBurnArgs ledger0).2.balances feeBurnArgs.«to» =
       ledger0.balances feeBurnArgs.«to» + feeBurnArgs.amount) :=
  ⟨by decide,
   transfer_fee_burn_total_supply 1 feeBurnArgs ledger0 0 {acctA, acctB}
     (by decide) (by decide) (by decide) (by decide)⟩

/-! ## Claim C5 -/

/-- Failure half of the allowance check, reused for the "subsequent call"
part of C5: whenever the stored allowance is below `amount + fee`,
`icrc2_transfer_from` fails with `InsufficientAllowance` carrying the stored
allowance and returns the state unchanged. -/
lemma transfer_from_insufficient_allowance (caller : Principal)
    (args : TransferFromArgs) (st : LedgerState)
    (h : (st.allowances (args.«from», ⟨caller, args.spender_subaccount⟩)).allowance <
      args.amount + args.fee.getD TRANSFER_FEE) :
    icrc2_transfer_from caller args st =
      (.error (.InsufficientAllowance
        (st.allowances (args.«from», ⟨caller, args.spender_subaccount⟩)).allowance), st) := by
  dsimp only [icrc2_transfer_from]
  rw [if_pos h]

/-- C5: for every `icrc2_transfer_from` call with amount `a` and effective
fee `f = args.fee.unwrap_or(TRANSFER_FEE)`: if the stored (from, spender)
allowance is below `a + f` the call fails with `InsufficientAllowance`
carrying the current allowance and changes no state; on success the
allowance decreases by exactly `a + f`, with the allowance entry removed
(reset to the absent-entry default) when it reaches zero, so a subsequent
`transfer_from` by the same spender on the same account exceeding the
remaining allowance fails with `InsufficientAllowance`. -/
theorem transfer_from_allowance_accounting (caller : Principal)
    (args args2 : TransferFromArgs) (st : LedgerState) (idx : Nat) :
    ((st.allowances (args.«from», ⟨caller, args.spender_subaccount⟩)).allowance <
        args.amount + args.fee.getD TRANSFER_FEE →
      icrc2_transfer_from caller args st =
        (.error (.InsufficientAllowance
          (st.allowances (args.«from», ⟨caller, args.spender_subaccount⟩)).allowance), st)) ∧
    ((icrc2_transfer_from caller args st).1 = .ok idx →
      (((icrc2_transfer_from caller args st).2.allowances
          (args.«from», ⟨caller, args.spender_subaccount⟩)).allowance +
          (args.amount + args.fee.getD TRANSFER_FEE) =
        (st.allowances (args.«from», ⟨caller, args.spender_subaccount⟩)).allowance) ∧
      ((st.allowances (args.«from», ⟨caller, args.spender_subaccount⟩)).allowance -
          (args.amount + args.fee.getD TRANSFER_FEE) = 0 →
        (icrc2_transfer_from caller args st).2.allowances
          (args.«from», ⟨caller, args.spender_subaccount⟩) = defaultAllowance) ∧
      (args2.«from» = args.«from» → args2.spender_subaccount = args.spender_subaccount →
        (((icrc2_transfer_from caller args st).2.allowances
            (args.«from», ⟨caller, args.spender_subaccount⟩)).allowance <
          args2.amount + args2.fee.getD TRANSFER_FEE) →
        icrc2_transfer_from caller args2 (icrc2_transfer_from caller args st).2 =
          (.error (.InsufficientAllowance
            (((icrc2_transfer_from caller args st).2.allowances
              (args.«from», ⟨caller, args.spender_subaccount⟩)).allowance)),
           (icrc2_transfer_from caller args st).2))) := by
  constructor
  · intro h
    exact transfer_from_insufficient_allowance caller args st h
  · intro hok
    have hrepeat : ∀ hfrom2 : args2.«from» = args.«from»,
        ∀ hsp2 : args2.spender_subaccount = args.spender_subaccount,
        (((icrc2_transfer_from caller args st).2.allowances
            (args.«from», ⟨caller, args.spender_subaccount⟩)).allowance <
          args2.amount + args2.fee.getD TRANSFER_FEE) →
        icrc2_transfer_from caller args2 (icrc2_transfer_from caller args st).2 =
          (.error (.InsufficientAllowance
            (((icrc2_transfer_from caller args st).2.allowances
              (args.«from», ⟨caller, args.spender_subaccount⟩)).allowance)),
           (icrc2_transfer_from caller args st).2) := by
      intro hfrom2 hsp2 hlt
      have := transfer_from_insufficient_allowance caller args2
        (icrc2_transfer_from caller args st).2 (by rw [hfrom2, hsp2]; exact hlt)
      rw [hfrom2, hsp2] at this
      exact this
    refine ⟨?_, ?_, hrepeat⟩
    · dsimp only [icrc2_transfer_from] at hok ⊢
      split_ifs at hok ⊢ with h1 h2 h3
      all_goals simp only [Prod.fst, reduceCtorEq] at hok
      · simp only [Function.update_same, defaultAllowance]
        omega
      · simp only [Function.update_same]
        omega
    · dsimp only [icrc2_transfer_from] at hok ⊢
      split_ifs at hok ⊢ with h1 h2 h3
      all_goals simp only [Prod.fst, reduceCtorEq] at hok
      · intro _
        simp only [Function.update_same]
      · intro hzero
        exact absurd hzero h3

/-- A ledger state for the C5/C8/C9 witnesses: `acctA` holds 1000 satoshi
and has approved spender `acctB` (owner 2) for 150 with an already-elapsed
expiry timestamp. -/
def ledgerAllow : LedgerState :=
  { balances := fun a => if a = acctA then 1000 else 0
    allowances := fun k => if k = (acctA, acctB) then ⟨150, some 5⟩ else defaultAllowance
    totalSupply := 1000
    blockIndex := 0 }

/-- First delegated transfer for the C5 witness: spender 2 moves 100 from
`acctA` to `acctB` with the default fee 10 (allowance use 110 of 150). -/
def tfArgsC5 : TransferFromArgs := ⟨none, acctA, acctB, 100, none, none, none⟩

/-- Second delegated transfer for the C5 witness: 50 more with the default
fee 10 exceeds the remaining allowance of 40. -/
def tfArgsC5' : TransferFromArgs := ⟨none, acctA, acctB, 50, none, none, none⟩

/-- Witness for C5 at a concrete input: the first call succeeds, the
allowance drops from 150 by exactly 110, and the follow-up call exceeding
the remaining 40 fails with `InsufficientAllowance`. -/
theorem transfer_from_allowance_accounting_witness :
    ((icrc2_transfer_from 2 tfArgsC5 ledgerAllow).1 = .ok 0) ∧
    (((icrc2_transfer_from 2 tfArgsC5 ledgerAllow).2.allowances
        (tfArgsC5.«from», ⟨2, tfArgsC5.spender_subaccount⟩)).allowance +
        (tfArgsC5.amount + tfArgsC5.fee.getD TRANSFER_FEE) =
      (ledgerAllow.allowances
        (tfArgsC5.«from», ⟨2, tfArgsC5.spender_subaccount⟩)).allowance) ∧
    (icrc2_transfer_from 2 tfArgsC5' (icrc2_transfer_from 2 tfArgsC5 ledgerAllow).2 =
      (.error (.InsufficientAllowance
        (((icrc2_transfer_from 2 tfArgsC5 ledgerAllow).2.allowances
          (tfArgsC5.«from», ⟨2, tfArgsC5.spender_subaccount⟩)).allowance)),
       (icrc2_transfer_from 2 tfArgsC5 ledgerAllow).2)) := by
  have h := (transfer_from_allowance_accounting 2 tfArgsC5 tfArgsC5' ledgerAllow 0).2
    (by decide)
  exact ⟨by decide, h.1, h.2.2 rfl rfl (by decide)⟩

/-! ## Claim C8 -/

/-- C8: `icrc2_transfer_from` performs no fee validation and never returns
`BadFee`: for every caller-supplied fee `f` (including 0) the effective fee
is `f` itself — on success the allowance is decremented by `amount + f`, the
`from` account is debited by `amount + f` (for distinct accounts, with the
recipient credited exactly `amount`), and the balance total over any account
set containing the touched accounts drops by exactly `f` — so a caller
passing `fee = 0` avoids the fee burn entirely. -/
theorem transfer_from_no_fee_validation (caller : Principal)
    (args : TransferFromArgs) (st : LedgerState) (f idx n : Nat) (S : Finset Account)
    (hfee : args.fee = some f) :
    ((icrc2_transfer_from caller args st).1 ≠ .error (.BadFee n)) ∧
    ((icrc2_transfer_from caller args st).1 = .ok idx →
      (((icrc2_transfer_from caller args st).2.allowances
          (args.«from», ⟨caller, args.spender_subaccount⟩)).allowance +
          (args.amount + f) =
        (st.allowances (args.«from», ⟨caller, args.spender_subaccount⟩)).allowance) ∧
      (args.«from» ≠ args.«to» →
        (icrc2_transfer_from caller args st).2.balances args.«from» + (args.amount + f) =
          st.balances args.«from» ∧
        (icrc2_transfer_from caller args st).2.balances args.«to» =
          st.balances args.«to» + args.amount) ∧
      (args.«from» ∈ S → args.«to» ∈ S →
        (∑ a ∈ S, (icrc2_transfer_from caller args st).2.balances a) + f =
          ∑ a ∈ S, st.balances a)) := by
  have hgetD : args.fee.getD TRANSFER_FEE = f := by rw [hfee]; rfl
  constructor
  · dsimp only [icrc2_transfer_from]
    split_ifs <;> simp
  · intro hok
    refine ⟨?_, ?_, ?_⟩
    · rw [← hgetD]
      dsimp only [icrc2_transfer_from] at hok ⊢
      split_ifs at hok ⊢ with h1 h2 h3
      all_goals simp only [Prod.fst, reduceCtorEq] at hok
      · simp only [Function.update_same, defaultAllowance]
        omega
      · simp only [Function.update_same]
        omega
    · intro hne
      rw [← hgetD]
      dsimp only [icrc2_transfer_from] at hok ⊢
      split_ifs at hok ⊢ with h1 h2 h3
      all_goals simp only [Prod.fst, reduceCtorEq] at hok
      all_goals
        refine ⟨?_, ?_⟩
      all_goals
        simp only [Function.update_noteq hne, Function.update_same,
          Function.update_noteq (Ne.symm hne)]
      all_goals omega
    · intro hfromS htoS
      have hsum := LedgerOp.sum_run_add_chargedFee (.transferFrom caller args) st S
        (by
          intro acc hacc
          simp only [LedgerOp.touched, List.mem_cons, List.mem_singleton,
            List.not_mem_nil, or_false] at hacc
          rcases hacc with rfl | rfl
          · exact hfromS
          · exact htoS)
      dsimp only [LedgerOp.run, LedgerOp.chargedFee] at hsum
      rw [hok] at hsum
      rw [← hgetD]
      exact hsum

/-- Arguments for the C8 witness: spender 2 moves 100 from `acctA` to
`acctB` with an explicit fee of 0 — the ledger accepts it and burns
nothing. -/
def tfArgsZeroFee : TransferFromArgs := ⟨none, acctA, acctB, 100, some 0, none, none⟩

/-- Witness for C8 at a concrete input: with `fee = some 0` the call is not
`BadFee`, it succeeds, the allowance drops by exactly `100 + 0`, the payer is
debited `100 + 0`, and the balance total is fully conserved (nothing
burned). -/
theorem transfer_from_no_fee_validation_witness :
    tfArgsZeroFee.fee = some 0 ∧
    ((icrc2_transfer_from 2 tfArgsZeroFee ledgerAllow).1 ≠ .error (.BadFee 10)) ∧
    ((icrc2_transfer_from 2 tfArgsZeroFee ledgerAllow).1 = .ok 0) ∧
    (((icrc2_transfer_from 2 tfArgsZeroFee ledgerAllow).2.allowances
        (tfArgsZeroFee.«from», ⟨2, tfArgsZeroFee.spender_subaccount⟩)).allowance +
        (tfArgsZeroFee.amount + 0) =
      (ledgerAllow.allowances
        (tfArgsZeroFee.«from», ⟨2, tfArgsZeroFee.spender_subaccount⟩)).allowance) ∧
    ((icrc2_transfer_from 2 tfArgsZeroFee ledgerAllow).2.balances tfArgsZeroFee.«from» +
        (tfArgsZeroFee.amount + 0) = ledgerAllow.balances tfArgsZeroFee.«from») ∧
    ((∑ a ∈ ({acctA, acctB} : Finset Account),
        (icrc2_transfer_from 2 tfArgsZeroFee ledgerAllow).2.balances a) + 0 =
      ∑ a ∈ ({acctA, acctB} : Finset Account), ledgerAllow.balances a) := by
  have h := transfer_from_no_fee_validation 2 tfArgsZeroFee ledgerAllow 0 0 10
    {acctA, acctB} rfl
  have hok : (icrc2_transfer_from 2 tfArgsZeroFee ledgerAllow).1 = .ok 0 := by decide
  have h2 := h.2 hok
  exact ⟨rfl, h.1, hok, h2.1, (h2.2.1 (by decide)).1, h2.2.2 (by decide) (by decide)⟩

/-! ## Claim C9 -/

/-- C9: allowance expiry is never enforced.  `icrc2_approve` stores
`expires_at`, but `icrc2_transfer_from` never reads it: for every stored
allowance with any `expires_at` value (including timestamps in the past —
the operation takes no clock input at all), the call's result, the resulting
balances and the block index are identical to those on the state whose
stored expiry is erased (`none`), and on success with a nonzero remaining
allowance the stored `expires_at` is carried over unchanged into the
remaining entry. -/
theorem transfer_from_ignores_expiry (caller : Principal) (args : TransferFromArgs)
    (st st2 : LedgerState) (idx : Nat)
    (h2 : st2 = { st with
      allowances := Function.update st.allowances
        (args.«from», ⟨caller, args.spender_subaccount⟩)
        ⟨(st.allowances (args.«from», ⟨caller, args.spender_subaccount⟩)).allowance,
          none⟩ }) :
    ((icrc2_transfer_from caller args st).1 = (icrc2_transfer_from caller args st2).1) ∧
    ((icrc2_transfer_from caller args st).2.balances =
      (icrc2_transfer_from caller args st2).2.balances) ∧
    ((icrc2_transfer_from caller args st).2.blockIndex =
      (icrc2_transfer_from caller args st2).2.blockIndex) ∧
    ((icrc2_transfer_from caller args st).1 = .ok idx →
      (st.allowances (args.«from», ⟨caller, args.spender_subaccount⟩)).allowance -
        (args.amount + args.fee.getD TRANSFER_FEE) ≠ 0 →
      (icrc2_transfer_from caller args st).2.allowances
          (args.«from», ⟨caller, args.spender_subaccount⟩) =
        ⟨(st.allowances (args.«from», ⟨caller, args.spender_subaccount⟩)).allowance -
          (args.amount + args.fee.getD TRANSFER_FEE),
         (st.allowances (args.«from», ⟨caller, args.spender_subaccount⟩)).expires_at⟩) := by
  subst h2
  dsimp only [icrc2_transfer_from]
  simp only [Function.update_same]
  split_ifs with h1 h2 h3
  · refine ⟨rfl, rfl, rfl, ?_⟩
    intro hok
    exact absurd hok (by simp)
  · refine ⟨rfl, rfl, rfl, ?_⟩
    intro hok
    exact absurd hok (by simp)
  · refine ⟨rfl, rfl, rfl, ?_⟩
    intro _ hrem
    exact absurd h3 hrem
  · refine ⟨rfl, rfl, rfl, ?_⟩
    intro _ _
    simp only [Function.update_same]

/-- The C9 comparison state: `ledgerAllow` with the stored expiry of the
(acctA, acctB) allowance erased. -/
def ledgerAllowNoExpiry : LedgerState :=
  { ledgerAllow with
    allowances := Function.update ledgerAllow.allowances
      (tfArgsC5.«from», ⟨2, tfArgsC5.spender_subaccount⟩)
      ⟨(ledgerAllow.allowances
          (tfArgsC5.«from», ⟨2, tfArgsC5.spender_subaccount⟩)).allowance, none⟩ }

/-- Witness for C9 at a concrete input: on `ledgerAllow`, whose stored
allowance carries the already-past expiry timestamp 5, the delegated
transfer returns the same result as on the expiry-erased state (and in fact
succeeds), and the remaining allowance keeps `expires_at = some 5`
unchanged. -/
theorem transfer_from_ignores_expiry_witness :
    ((icrc2_transfer_from 2 tfArgsC5 ledgerAllow).1 =
      (icrc2_transfer_from 2 tfArgsC5 ledgerAllowNoExpiry).1) ∧
    ((icrc2_transfer_from 2 tfArgsC5 ledgerAllow).1 = .ok 0) ∧
    ((icrc2_transfer_from 2 tfArgsC5 ledgerAllow).2.allowances
        (tfArgsC5.«from», ⟨2, tfArgsC5.spender_subaccount⟩) =
      ⟨(ledgerAllow.allowances
          (tfArgsC5.«from», ⟨2, tfArgsC5.spender_subaccount⟩)).allowance -
        (tfArgsC5.amount + tfArgsC5.fee.getD TRANSFER_FEE),
       (ledgerAllow.allowances
          (tfArgsC5.«from», ⟨2, tfArgsC5.spender_subaccount⟩)).expires_at⟩) := by
  have h := transfer_from_ignores_expiry 2 tfArgsC5 ledgerAllow ledgerAllowNoExpiry 0 rfl
  exact ⟨h.1, by decide, h.2.2.2 (by decide) (by decide)⟩

/-! ## Claim C4 -/

/-- C4: no ledger or custodial operation leaves a balance negative — every
balance subtraction is guarded.  For `icrc1_transfer` and (with sufficient
allowance) `icrc2_transfer_from`, an attempt to spend more than the
available balance fails with `InsufficientFunds` and returns the state
unchanged, and success implies the debited amount was covered (so the
subtraction cannot underflow); for `virtual_transfer`, an attempt to spend
more than the sender's virtual balance fails with the insufficient-funds
error and leaves the virtual-balance map unchanged, and success implies the
debit was covered. -/
theorem no_overdraft (caller : Principal) (targs : TransferArg)
    (tfargs : TransferFromArgs) (st : LedgerState) (idx idx2 : Nat)
    (u v : Principal) (amt txid : Nat) (bst : BackendState) :
    (targs.fee.getD TRANSFER_FEE = TRANSFER_FEE →
      st.balances ⟨caller, targs.from_subaccount⟩ <
          targs.amount + targs.fee.getD TRANSFER_FEE →
      icrc1_transfer caller targs st =
        (.error (.InsufficientFunds (st.balances ⟨caller, targs.from_subaccount⟩)),
          st)) ∧
    ((icrc1_transfer caller targs st).1 = .ok idx →
      targs.amount + targs.fee.getD TRANSFER_FEE ≤
        st.balances ⟨caller, targs.from_subaccount⟩) ∧
    (¬ (st.allowances (tfargs.«from», ⟨caller, tfargs.spender_subaccount⟩)).allowance <
          tfargs.amount + tfargs.fee.getD TRANSFER_FEE →
      st.balances tfargs.«from» < tfargs.amount + tfargs.fee.getD TRANSFER_FEE →
      icrc2_transfer_from caller tfargs st =
        (.error (.InsufficientFunds (st.balances tfargs.«from»)), st)) ∧
    ((icrc2_transfer_from caller tfargs st).1 = .ok idx2 →
      tfargs.amount + tfargs.fee.getD TRANSFER_FEE ≤ st.balances tfargs.«from») ∧
    ((to_u64_digits amt).length = 1 → u ≠ v →
      lookupBal bst.userBalances u < amt →
      (virtual_transfer u v amt bst).1 =
          .error (.insufficientVirtual (lookupBal bst.userBalances u) amt) ∧
        (virtual_transfer u v amt bst).2.userBalances = bst.userBalances) ∧
    ((virtual_transfer u v amt bst).1 = .ok txid →
      amt ≤ lookupBal bst.userBalances u) := by
  refine ⟨?_, ?_, ?_, ?_, ?_, ?_⟩
  · intro hfee hlt
    dsimp only [icrc1_transfer]
    rw [if_neg (by simp [hfee]), if_pos hlt]
  · intro hok
    dsimp only [icrc1_transfer] at hok
    split_ifs at hok with h1 h2
    all_goals simp only [Prod.fst, reduceCtorEq] at hok
    omega
  · intro hallow hlt
    dsimp only [icrc2_transfer_from]
    rw [if_neg hallow, if_pos hlt]
  · intro hok
    dsimp only [icrc2_transfer_from] at hok
    split_ifs at hok with h1 h2
    all_goals simp only [Prod.fst, reduceCtorEq] at hok
    all_goals omega
  · intro hlen hne hlt
    dsimp only [virtual_transfer]
    rw [if_neg (by simp [hlen]), if_neg hne, if_pos hlt]
    exact ⟨rfl, rfl⟩
  · intro hok
    dsimp only [virtual_transfer] at hok
    split_ifs at hok with h1 h2 h3
    all_goals simp only [Prod.fst, reduceCtorEq] at hok
    omega

/-- A backend state for the backend-side witnesses: user 3 holds 100
virtual satoshi, user 4 holds 50, the logs are empty. -/
def bstEx : BackendState := ⟨[(3, 100), (4, 50)], [], 0, [], 0, 1234⟩

/-- A ledger state for the C4 witness of the delegated-transfer branch:
`acctA` holds only 50 satoshi but granted spender `acctB` (owner 2) a large
allowance. -/
def ledgerPoor : LedgerState :=
  { balances := fun a => if a = acctA then 50 else 0
    allowances := fun k => if k = (acctA, acctB) then ⟨1000, none⟩ else defaultAllowance
    totalSupply := 50
    blockIndex := 0 }

/-- Overspending transfer for the C4 witness: 2000 satoshi against a balance
of 1000. -/
def overdraftArgs : TransferArg := ⟨none, acctB, 2000, none, none, none⟩

/-- Overspending delegated transfer for the C4 witness: 100 satoshi (plus
fee 10) against a balance of 50, within the allowance of 1000. -/
def overdraftTfArgs : TransferFromArgs := ⟨none, acctA, acctB, 100, none, none, none⟩

/-- Witness for C4 at concrete inputs: the overspending `icrc1_transfer` and
`icrc2_transfer_from` fail with `InsufficientFunds` leaving the state
unchanged, the successful ones were covered, and the overspending and
successful `virtual_transfer` behave accordingly. -/
theorem no_overdraft_witness :
    (icrc1_transfer 1 overdraftArgs ledger0 =
      (.error (.InsufficientFunds (ledger0.balances ⟨1, overdraftArgs.from_subaccount⟩)),
        ledger0)) ∧
    (overdraftArgs.amount + overdraftArgs.fee.getD TRANSFER_FEE ≤ 2010) ∧
    ((icrc1_transfer 1 feeBurnArgs ledger0).1 = .ok 0 ∧
      feeBurnArgs.amount + feeBurnArgs.fee.getD TRANSFER_FEE ≤
        ledger0.balances ⟨1, feeBurnArgs.from_subaccount⟩) ∧
    (icrc2_transfer_from 2 overdraftTfArgs ledgerPoor =
      (.error (.InsufficientFunds (ledgerPoor.balances overdraftTfArgs.«from»)),
        ledgerPoor)) ∧
    ((virtual_transfer 3 4 500 bstEx).1 =
        .error (.insufficientVirtual (lookupBal bstEx.userBalances 3) 500) ∧
      (virtual_transfer 3 4 500 bstEx).2.userBalances = bstEx.userBalances) ∧
    ((virtual_transfer 3 4 20 bstEx).1 = .ok 1 ∧
      20 ≤ lookupBal bstEx.userBalances 3) := by
  have h20 : to_u64_digits 20 = [20] := to_u64_digits_one_limb 20 (by norm_num) (by norm_num)
  have h500 : to_u64_digits 500 = [500] := to_u64_digits_one_limb 500 (by norm_num) (by norm_num)
  have hvt20 : (virtual_transfer 3 4 20 bstEx).1 = .ok 1 := by
    dsimp only [virtual_transfer, bstEx]
    rw [if_neg (by simp [h20]), if_neg (by norm_num)]
    norm_num [lookupBal, store_custodial_transaction]
  refine ⟨?_, by decide, ⟨by decide, by decide⟩, ?_, ?_, hvt20, by decide⟩
  · exact (no_overdraft 1 overdraftArgs overdraftTfArgs ledger0 0 0 3 4 500 0 bstEx).1
      (by decide) (by decide)
  · exact (no_overdraft 2 overdraftArgs overdraftTfArgs ledgerPoor 0 0 3 4 500 0 bstEx).2.2.1
      (by decide) (by decide)
  · exact (no_overdraft 2 overdraftArgs overdraftTfArgs ledgerPoor 0 0 3 4 500 0 bstEx).2.2.2.2.1
      (by simp [h500]) (by norm_num) (by decide)

/-! ## Claim C10 -/

/-- C10: for every caller and every amount whose value is 0 or at least
`2^64`, `withdraw_funds` and `virtual_transfer` fail immediately with the
"Invalid amount format" error before any balance check or self-transfer
check (the recipient may even equal the caller), returning the state
unchanged — so no virtual balance changes and no transaction record is
appended. -/
theorem invalid_amount_guard (user v : Principal) (amount : Nat)
    (resp : LedgerCallResult) (st : BackendState)
    (h : amount = 0 ∨ 2 ^ 64 ≤ amount) :
    withdraw_funds user amount resp st = (.error .invalidAmount, st) ∧
    virtual_transfer user v amount st = (.error .invalidAmount, st) := by
  have hg : (to_u64_digits amount).length ≠ 1 := by
    intro hc
    rw [to_u64_digits_length_eq_one_iff] at hc
    omega
  constructor
  · dsimp only [withdraw_funds, withdraw_phase1]
    rw [if_pos hg]
  · dsimp only [virtual_transfer]
    rw [if_pos hg]

/-- Witness for C10 at concrete inputs: amount 0 and amount `2^64` (two
limbs) are both rejected with the invalid-amount error and an unchanged
state, even for a self-transfer recipient. -/
theorem invalid_amount_guard_witness :
    ((0 : Nat) = 0 ∨ 2 ^ 64 ≤ 0) ∧
    ((2 : Nat) ^ 64 = 0 ∨ 2 ^ 64 ≤ 2 ^ 64) ∧
    (withdraw_funds 3 0 (.reply (.ok 0)) bstEx = (.error .invalidAmount, bstEx)) ∧
    (virtual_transfer 3 3 0 bstEx = (.error .invalidAmount, bstEx)) ∧
    (withdraw_funds 3 (2 ^ 64) (.reply (.ok 0)) bstEx = (.error .invalidAmount, bstEx)) ∧
    (virtual_transfer 3 3 (2 ^ 64) bstEx = (.error .invalidAmount, bstEx)) := by
  have h0 := invalid_amount_guard 3 3 0 (.reply (.ok 0)) bstEx (by decide)
  have hbig := invalid_amount_guard 3 3 (2 ^ 64) (.reply (.ok 0)) bstEx (by norm_num)
  exact ⟨by decide, by norm_num, h0.1, h0.2, hbig.1, hbig.2⟩

/-! ## Claim C1 -/

/-- A user (principal 7) holding exactly 100 virtual satoshi, with empty
logs: the C1 reentrancy scenario's starting state. -/
def bstC1 : BackendState := ⟨[(7, 100)], [], 0, [], 0, 99⟩

/-- C1 (refuted on the code): the claim says the virtual-balance check is
re-validated immediately before the decrement, so that of two concurrent
`withdraw_funds(100)` calls from a user with VirtualBalance = 100, each
suspended at the ledger call, at most one succeeds and the other fails with
an insufficient-funds error.  The code does not re-validate: phase 2 writes
`snapshot - amount` computed from the phase-1 snapshot.  In the claimed
schedule — both pre-await phases run first (each passes the check on the
same snapshot 100 and leaves the state unchanged), then each resumes after
a successful ledger transfer — BOTH calls return `Ok`, each writes
`100 - 100 = 0`, and 200 satoshi are settled on-chain against a 100-satoshi
virtual balance.  The final balance is 0 (never negative), but the claimed
"the other fails with InsufficientFunds" is violated. -/
theorem withdraw_funds_reentrancy_double_success :
    withdraw_phase1 7 100 bstC1 = (.ok ⟨7, 100, 100⟩, bstC1) ∧
    (withdraw_phase2 ⟨7, 100, 100⟩ (.reply (.ok 41)) bstC1).1 = .ok 41 ∧
    (withdraw_phase2 ⟨7, 100, 100⟩ (.reply (.ok 42))
        (withdraw_phase2 ⟨7, 100, 100⟩ (.reply (.ok 41)) bstC1).2).1 = .ok 42 ∧
    lookupBal (withdraw_phase2 ⟨7, 100, 100⟩ (.reply (.ok 42))
        (withdraw_phase2 ⟨7, 100, 100⟩ (.reply (.ok 41)) bstC1).2).2.userBalances 7 = 0 := by
  have h100 : to_u64_digits 100 = [100] :=
    to_u64_digits_one_limb 100 (by norm_num) (by norm_num)
  refine ⟨?_, by decide, by decide, by decide⟩
  dsimp only [withdraw_phase1, bstC1]
  rw [if_neg (by simp [h100])]
  norm_num [lookupBal]

/-! ## Claim C3 -/

/-- C3 (refuted on the code): the claim says a `deposit_to_custody` call
whose ledger transfer returns a ledger-level error appends a Failed
transaction record and returns the ledger error.  At this concrete input
(personal balance 1000 covers the amount, ledger replies
`InsufficientFunds`), the call does return the ledger error — never
swallowed, never reported as success — but the state comes back exactly
unchanged: both transaction logs were empty before and are empty after, so
no Failed record is appended (the source returns at line 530–533 before any
`store_transaction` call; only its success path stores a record). -/
theorem deposit_to_custody_ledger_error_no_failed_record :
    deposit_to_custody 5 100 (some 1000)
        (.reply (.error (.InsufficientFunds 0))) none none bstEx =
      (.error (.transferFailed (.InsufficientFunds 0)), bstEx) ∧
    bstEx.txs = [] ∧ bstEx.stableTxs = [] := by
  decide

/-! ## Claim C7 -/

/-- The custodial wallet's own ledger account for the C7 scenario. -/
def backendAcct : Account := ⟨9, none⟩

/-- A backend state whose virtual balances sum to 500 (user 7). -/
def bstC7 : BackendState := ⟨[(7, 500)], [], 0, [], 0, 0⟩

/-- A ledger on which the custodial wallet's own account holds 1000
satoshi. -/
def ledgerC7 : LedgerState :=
  { balances := fun a => if a = backendAcct then 1000 else 0
    allowances := fun _ => defaultAllowance
    totalSupply := 1000
    blockIndex := 0 }

/-- C7 (refuted on the code): the claim says `reserve_status` returns
`actual` equal to the custodial wallet's own balance obtained from the token
ledger, `ratio = actual/total_virtual`, and `is_solvent ⇔ actual ≥
total_virtual`.  The source's `get_reserve_status` performs no ledger query
at all — `backend_actual` is the hard-coded placeholder 0 (its type takes
only the backend state) — so on a backend whose virtual total is 500 while
the wallet's ledger account holds 1000, it reports `actual = 0`,
`ratio = 0` and `is_solvent = false`, where the spec-side definition
(which does read the ledger) reports `actual = 1000`, `ratio = 2` and
`is_solvent = true`. -/
theorem get_reserve_status_placeholder_zero :
    get_reserve_status bstC7 =
      { total_virtual_balances := 500, backend_actual_balance := 0,
        reserve_ratio := 0, is_solvent := false } ∧
    reserve_status_spec bstC7 ledgerC7 backendAcct =
      { total_virtual_balances := 500, backend_actual_balance := 1000,
        reserve_ratio := 2, is_solvent := true } ∧
    get_reserve_status bstC7 ≠ reserve_status_spec bstC7 ledgerC7 backendAcct := by
  refine ⟨?_, ?_, ?_⟩
  · simp only [get_reserve_status, bstC7]
    norm_num
  · simp only [reserve_status_spec, bstC7, ledgerC7, icrc1_balance_of]
    norm_num
  · simp only [get_reserve_status, reserve_status_spec, bstC7, ledgerC7,
      icrc1_balance_of]
    norm_num

end CkTestBTC
